import Mathlib

/-!
Shallow embedding of the clustering dashboard client (MTC-2025 team 1).

The embedding follows the TypeScript sources:
* `services/api.ts` (the live variant): `handleResponse`, the adjustment
  request builders (`renameCluster`, `mergeSelectedClusters`,
  `splitSelectedCluster`, `deleteAndRedistributeCluster`).
* `App.tsx`: `fetchWithAuth` and its 401 handling.
* `components/ContactSheet.tsx` (live variant): `handleSaveClick`, the
  split-button guard.
* `components/SplitClusterModal.tsx`: `handleNumSplitsChange`, `handleConfirm`.
* `components/ChartsDisplay.tsx` / `ContactSheetsGrid`: the cluster sort
  comparator.
* `components/ClusteringDashboard.tsx` (Klaster variant): `fetchResults`.

JavaScript primitives (`parseFloat`, `parseInt`, `trim`, truthiness of
strings, `localeCompare`) are embedded as executable Lean functions on
`List Char` / `Rat`.  `localeCompare` is modelled as code-point comparison
(the comparator below only uses its sign).  The `Infinity` literal accepted
by `parseFloat` is outside the modelled grammar (such ids do not occur);
all finite decimal literals, signs, exponents and whitespace skipping are
modelled.
-/

namespace Klaster

/-- Cluster identifiers are `string | number` in the TypeScript sources;
JavaScript strict equality distinguishes the two, hence a sum type. -/
inductive ClusterId where
  | str (s : String)
  | num (n : Int)
deriving DecidableEq

/-- JavaScript `String(id)` coercion used at the sort sites. -/
def jsStringOfId : ClusterId → String
  | .str s => s
  | .num n => toString n

/-- The `ClusterResult` record of `services/api.ts` (the opaque `metrics`
field is omitted; `centroid_2d` coordinates are modelled as rationals). -/
structure ClusterResult where
  id : ClusterId
  original_id : Option String
  name : Option String
  size : Nat
  contactSheetUrl : Option String
  centroid_2d : Option (Rat × Rat)
deriving DecidableEq

/-- Parsed JSON body as seen by `handleResponse`: only the `error` and
`message` string fields are inspected; `none` on a field means the field is
absent (or not a string), `some ""` means present but empty. -/
structure ParsedBody where
  error : Option String
  message : Option String
deriving DecidableEq

/-- A fetch `Response` as observed by the response handler: its numeric
status and the result of `response.json()` (`none` when the body is absent
or not parseable as JSON). -/
structure JsResponse where
  status : Nat
  jsonBody : Option ParsedBody
deriving DecidableEq

/-- The `Response.ok` getter of the fetch API: status in the inclusive
range 200-299. -/
def response_ok (status : Nat) : Bool :=
  decide (200 ≤ status) && decide (status ≤ 299)

/-- Result of `handleResponse`: the resolved payload (`success none` models
resolving with `null`) or the thrown `Error` message. -/
inductive HandleResult where
  | success (payload : Option ParsedBody)
  | failure (msg : String)
deriving DecidableEq

/-- JavaScript `a || b` on an optional string `a`: an absent or empty
string is falsy and falls through to `b`. -/
def jsTruthyOr (v : Option String) (fallback : String) : String :=
  match v with
  | some s => if s = "" then fallback else s
  | none => fallback

/-- The `handleResponse` helper of `services/api.ts`: 204 resolves with
`null`; an unparseable body throws a generic error on a non-ok status and
resolves with `null` on an ok status; a parsed body on a non-ok status
throws `data?.error || data?.message || generic`. -/
def handleResponse (r : JsResponse) : HandleResult :=
  if r.status = 204 then
    .success none
  else
    match r.jsonBody with
    | none =>
      if response_ok r.status = false then
        .failure ("HTTP error! Status: " ++ toString r.status ++ ", Body is not JSON.")
      else
        .success none
    | some data =>
      if response_ok r.status = false then
        .failure (jsTruthyOr data.error
          (jsTruthyOr data.message ("HTTP error! Status: " ++ toString r.status)))
      else
        .success (some data)

/-- The JSON body of a POST to the adjust endpoint, one constructor per
`action` value, with the wire field names of `services/api.ts`. -/
inductive AdjustPayload where
  | renamePayload (cluster_id : ClusterId) (new_name : String)
  | mergePayload (cluster_ids_to_merge : List ClusterId)
  | splitPayload (cluster_id_to_split : ClusterId) (num_splits : Nat)
deriving DecidableEq

/-- The `action` tag serialized into each adjust payload. -/
def adjustActionTag : AdjustPayload → String
  | .renamePayload _ _ => "RENAME"
  | .mergePayload _ => "MERGE_CLUSTERS"
  | .splitPayload _ _ => "SPLIT_CLUSTER"

/-- One HTTP request as issued through `fetchWithAuth` by the clustering
API module (only the adjust-style JSON bodies are modelled; `none` is a
bodyless request). -/
structure HttpRequest where
  method : String
  url : String
  body : Option AdjustPayload
deriving DecidableEq

/-- URL of the adjust endpoint, from the template literal in
`services/api.ts`. -/
def adjustUrl (sessionId : String) : String :=
  "/api/clustering/results/" ++ sessionId ++ "/adjust"

/-- The single request issued by `renameCluster` in `services/api.ts`. -/
def renameClusterRequest (sessionId : String) (clusterId : ClusterId)
    (newName : String) : HttpRequest :=
  { method := "POST", url := adjustUrl sessionId
    body := some (.renamePayload clusterId newName) }

/-- The single request issued by `mergeSelectedClusters` in
`services/api.ts`. -/
def mergeSelectedClustersRequest (sessionId : String)
    (clusterIds : List ClusterId) : HttpRequest :=
  { method := "POST", url := adjustUrl sessionId
    body := some (.mergePayload clusterIds) }

/-- The single request issued by `splitSelectedCluster` in
`services/api.ts`. -/
def splitSelectedClusterRequest (sessionId : String) (clusterId : ClusterId)
    (numSplits : Nat) : HttpRequest :=
  { method := "POST", url := adjustUrl sessionId
    body := some (.splitPayload clusterId numSplits) }

/-- The single request issued by `deleteAndRedistributeCluster` in
`services/api.ts`: a bodyless DELETE on the cluster resource. -/
def deleteAndRedistributeClusterRequest (sessionId : String)
    (clusterLabel : ClusterId) : HttpRequest :=
  { method := "DELETE"
    url := "/api/clustering/results/" ++ sessionId ++ "/cluster/"
      ++ jsStringOfId clusterLabel
    body := none }

/-- Requests performed by one invocation of `renameCluster`: the function
body contains exactly one `fetchWithAuth` call. -/
def renameClusterCall (sessionId : String) (clusterId : ClusterId)
    (newName : String) : List HttpRequest :=
  [renameClusterRequest sessionId clusterId newName]

/-- Requests performed by one invocation of `mergeSelectedClusters`. -/
def mergeSelectedClustersCall (sessionId : String)
    (clusterIds : List ClusterId) : List HttpRequest :=
  [mergeSelectedClustersRequest sessionId clusterIds]

/-- Requests performed by one invocation of `splitSelectedCluster`. -/
def splitSelectedClusterCall (sessionId : String) (clusterId : ClusterId)
    (numSplits : Nat) : List HttpRequest :=
  [splitSelectedClusterRequest sessionId clusterId numSplits]

/-- Requests performed by one invocation of
`deleteAndRedistributeCluster`. -/
def deleteAndRedistributeClusterCall (sessionId : String)
    (clusterLabel : ClusterId) : List HttpRequest :=
  [deleteAndRedistributeClusterRequest sessionId clusterLabel]

/-- Authentication slice of the `App` component state. -/
structure AuthState where
  authToken : Option String
  isAuthenticated : Bool
deriving DecidableEq

/-- Observable outcome of one `fetchWithAuth` call: the headers actually
sent, whether `handleLogout` fired, and the response returned to the
caller. -/
structure FetchOutcome where
  requestUrl : String
  sentHeaders : List (String × String)
  logoutCalled : Bool
  response : JsResponse
deriving DecidableEq

/-- `Headers.set`: replace the value of an existing header or append. -/
def setHeader (hs : List (String × String)) (k v : String) :
    List (String × String) :=
  if hs.any (fun p => decide (p.1 = k)) then
    hs.map (fun p => if p.1 = k then (k, v) else p)
  else
    hs ++ [(k, v)]

/-- The `fetchWithAuth` wrapper of `App.tsx`: sets `Content-Type` for
non-FormData bodies, attaches the bearer token when present, performs the
fetch, and calls `handleLogout` on a 401 response, but only when
`isAuthenticated` is currently true. -/
def fetchWithAuth (st : AuthState) (url : String)
    (headers0 : List (String × String)) (bodyIsFormData : Bool)
    (resp : JsResponse) : FetchOutcome :=
  let h1 :=
    if bodyIsFormData then headers0
    else setHeader headers0 "Content-Type" "application/json"
  let h2 :=
    match st.authToken with
    | some t => setHeader h1 "Authorization" ("Bearer " ++ t)
    | none => h1
  { requestUrl := url
    sentHeaders := h2
    logoutCalled := decide (resp.status = 401) && st.isAuthenticated
    response := resp }

/-- JavaScript whitespace as skipped by `parseFloat` / `parseInt` and
removed by `String.prototype.trim` (ASCII whitespace, NBSP and the BOM;
other exotic Unicode space characters do not occur in the sources). -/
def isJsWhitespace (c : Char) : Bool :=
  c = ' ' || c = '\t' || c = '\n' || c = '\r' ||
  c.toNat = 11 || c.toNat = 12 || c.toNat = 0xa0 || c.toNat = 0xfeff

/-- Value of a list of decimal digit characters. -/
def digitsToNat (ds : List Char) : Nat :=
  ds.foldl (fun a c => a * 10 + (c.toNat - 48)) 0

/-- JavaScript `parseFloat`: skip whitespace, optional sign, then the
longest decimal literal prefix (integer part, optional fraction, optional
exponent); `none` models the `NaN` result when no digits are found. -/
def jsParseFloat (s : String) : Option Rat :=
  let cs := s.data.dropWhile isJsWhitespace
  let signAndRest : Bool × List Char :=
    match cs with
    | '-' :: t => (true, t)
    | '+' :: t => (false, t)
    | t => (false, t)
  let neg := signAndRest.1
  let cs1 := signAndRest.2
  let intDs := cs1.takeWhile Char.isDigit
  let rest1 := cs1.dropWhile Char.isDigit
  let fracAndRest : List Char × List Char :=
    match rest1 with
    | '.' :: t => (t.takeWhile Char.isDigit, t.dropWhile Char.isDigit)
    | t => ([], t)
  let fracDs := fracAndRest.1
  let rest2 := fracAndRest.2
  if intDs.isEmpty && fracDs.isEmpty then none
  else
    let mantissa : Rat :=
      (digitsToNat intDs : Rat) + (digitsToNat fracDs : Rat) / (10 : Rat) ^ fracDs.length
    let expVal : Int :=
      match rest2 with
      | e :: t =>
        if e = 'e' || e = 'E' then
          let esignAndRest : Bool × List Char :=
            match t with
            | '-' :: t2 => (true, t2)
            | '+' :: t2 => (false, t2)
            | t2 => (false, t2)
          let eds := esignAndRest.2.takeWhile Char.isDigit
          if eds.isEmpty then 0
          else if esignAndRest.1 then -(digitsToNat eds : Int)
          else (digitsToNat eds : Int)
        else 0
      | [] => 0
    let scaled : Rat :=
      if 0 ≤ expVal then mantissa * (10 : Rat) ^ expVal.toNat
      else mantissa / (10 : Rat) ^ expVal.natAbs
    some (if neg then -scaled else scaled)

/-- JavaScript `parseInt(s, 10)`: skip whitespace, optional sign, then the
longest decimal digit prefix; `none` models the `NaN` result. -/
def jsParseIntBase10 (s : String) : Option Int :=
  let cs := s.data.dropWhile isJsWhitespace
  let signAndRest : Bool × List Char :=
    match cs with
    | '-' :: t => (true, t)
    | '+' :: t => (false, t)
    | t => (false, t)
  let ds := signAndRest.2.takeWhile Char.isDigit
  if ds.isEmpty then none
  else if signAndRest.1 then some (-(digitsToNat ds : Int))
  else some (digitsToNat ds : Int)

/-- JavaScript `String.prototype.trim`: strip leading and trailing
whitespace. -/
def jsTrim (s : String) : String :=
  ⟨((s.data.dropWhile isJsWhitespace).reverse.dropWhile isJsWhitespace).reverse⟩

/-- Outcome of the save button in the live `ContactSheet` component: either
the edit is closed without any request (a successful no-op), or the
`onRename` collaborator is invoked once with the given argument (which the
parent forwards to the `renameCluster` API call). -/
inductive RenameAction where
  | noop
  | callRename (newName : String)
deriving DecidableEq

/-- The `handleSaveClick` handler of the live `ContactSheet` component:
`if (currentName === initialName) return;` then
`onRename(clusterId, currentName.trim())`.  The raw edited name is compared
against the `initialName` prop (the cluster record name, `none` for a null
label); only on strict equality is the request skipped. -/
def handleSaveClick (currentName : String) (initialName : Option String) :
    RenameAction :=
  if some currentName = initialName then .noop
  else .callRename (jsTrim currentName)

/-- The `handleNumSplitsChange` handler of `SplitClusterModal`: the input
state accepts only the empty string or a string matching `[0-9]+`. -/
def handleNumSplitsChange (prev val : String) : String :=
  if val = "" || val.data.all Char.isDigit then val else prev

/-- The `handleConfirm` handler of `SplitClusterModal`: parse the input
with `parseInt(-, 10)`; on `NaN` or a value below 2 set a validation error
and return without invoking `onConfirm`; otherwise invoke `onConfirm` with
the parsed count (returned here as `some`). -/
def splitModalHandleConfirm (numSplitsInput : String) : Option Nat :=
  match jsParseIntBase10 numSplitsInput with
  | none => none
  | some k => if k < 2 then none else some k.toNat

/-- The split button guard of the live `ContactSheet` component:
`disabled={commonDisabled || clusterSize < 2}`. -/
def splitButtonEnabled (commonDisabled : Bool) (clusterSize : Nat) : Bool :=
  !commonDisabled && !(decide (clusterSize < 2))

/-- Outcome of an adjustment attempt in the dashboard: a local rejection
(precondition or validation failure, nothing sent) or a single request
handed to the API gateway. -/
inductive AdjustAttempt where
  | rejected (reason : String)
  | sendRequest (r : HttpRequest)
deriving DecidableEq

/-- Network requests issued by an adjustment attempt. -/
def attemptRequests : AdjustAttempt → List HttpRequest
  | .rejected _ => []
  | .sendRequest r => [r]

/-- Cluster collection plus the merge selection set of the active
session. -/
structure MergeContext where
  clusters : List ClusterResult
  selectedIds : List ClusterId
deriving DecidableEq

/-- Number of selected ids present in the current cluster collection. -/
def selectedPresentCount (ctx : MergeContext) : Nat :=
  (ctx.selectedIds.filter
    (fun cid => ctx.clusters.any (fun c => decide (c.id = cid)))).length

/-- Modelled from the spec: the merge handler of the live dashboard is not
under `src/` (only its callee `mergeSelectedClusters` is); per the spec the
input set must contain at least 2 members present in the current cluster
collection, else the operation fails its precondition with no network
call, and otherwise exactly one adjust request is sent. -/
def handleMergeClusters (sessionId : String) (ctx : MergeContext) :
    AdjustAttempt :=
  if selectedPresentCount ctx < 2 then
    .rejected "merge requires at least 2 selected clusters"
  else
    .sendRequest (mergeSelectedClustersRequest sessionId ctx.selectedIds)

/-- Modelled from the spec: the dashboard wiring from the split button
through `SplitClusterModal` to `splitSelectedCluster` is not under `src/`;
the button guard and the modal validation are embedded from the sources,
and a request is sent exactly when both pass. -/
def splitInvocation (sessionId : String) (commonDisabled : Bool)
    (cluster : ClusterResult) (numSplitsInput : String) : AdjustAttempt :=
  if splitButtonEnabled commonDisabled cluster.size = false then
    .rejected "split unavailable for this cluster"
  else
    match splitModalHandleConfirm numSplitsInput with
    | none => .rejected "numSplits must be an integer of at least 2"
    | some k => .sendRequest (splitSelectedClusterRequest sessionId cluster.id k)

/-- The closed status enumeration of a clustering session (spec section 3;
the string constants appear throughout the dashboard sources). -/
inductive SessionStatus where
  | STARTED
  | PROCESSING
  | SUCCESS
  | FAILURE
  | RECLUSTERED
  | RECLUSTERING_FAILED
deriving DecidableEq

/-- Terminal statuses: reaching one stops polling for the session. -/
def isTerminalStatus : SessionStatus → Bool
  | .SUCCESS => true
  | .FAILURE => true
  | .RECLUSTERED => true
  | .RECLUSTERING_FAILED => true
  | _ => false

/-- Fixed polling interval of the reference system, in milliseconds. -/
def POLL_INTERVAL_MS : Nat := 5000

/-- Polling state of the session lifecycle controller for the active
session. -/
structure PollState where
  pollingActive : Bool
  intervalMs : Nat
  lastStatus : SessionStatus
deriving DecidableEq

/-- Events that can change the polling state after a session was
selected. -/
inductive LifecycleEvent where
  | pollTick (fetched : SessionStatus)
  | adjustReconcile (fetched : SessionStatus)
deriving DecidableEq

/-- Modelled from the spec: applying one fetched session detail to the
controller; polling runs at the fixed 5 second interval exactly while the
fetched status is non-terminal. -/
def applyFetch (s : SessionStatus) : PollState :=
  { pollingActive := !isTerminalStatus s
    intervalMs := POLL_INTERVAL_MS
    lastStatus := s }

/-- Modelled from the spec: `selectSession` cancels any existing poll
(the previous state is discarded), performs one immediate fetch and starts
the recurring poll if the fetched status is non-terminal. -/
def selectSession (_prev : PollState) (fetched : SessionStatus) : PollState :=
  applyFetch fetched

/-- Modelled from the spec: the lifecycle step.  A poll tick only has an
effect while polling is active (a stopped poll never fires again); an
adjustment reconciliation fetch applies its result unconditionally and is
the only way a stopped poll can restart. -/
def lifecycleStep (st : PollState) : LifecycleEvent → PollState
  | .pollTick s => if st.pollingActive then applyFetch s else st
  | .adjustReconcile s => applyFetch s

/-- The `SessionResultResponse` record of `services/api.ts`, restricted to
the fields the dashboard reconciliation writes back (the dashboard guards
`resultsData.clusters || []`, hence the optional list). -/
structure SessionResultResponse where
  session_id : String
  status : String
  clusters : Option (List ClusterResult)
  num_clusters : Option Nat
  message : Option String
  error : Option String
deriving DecidableEq

/-- The dashboard state slice written by `fetchResults` in
`ClusteringDashboard.tsx`. -/
structure DashState where
  clusters : List ClusterResult
  currentSessionDetails : Option SessionResultResponse
deriving DecidableEq

/-- The success path of `fetchResults` in `ClusteringDashboard.tsx`:
`setCurrentSessionDetails(resultsData); setClusters(resultsData.clusters || [])`
— the cluster collection is replaced wholesale by the fetched detail. -/
def fetchResultsApply (st : DashState) (resultsData : SessionResultResponse) :
    DashState :=
  { st with
    currentSessionDetails := some resultsData
    clusters := resultsData.clusters.getD [] }

/-- The four mutation operations of the adjustment coordinator. -/
inductive AdjustmentKind where
  | rename
  | mergeClusters
  | splitCluster
  | deleteRedistribute
deriving DecidableEq

/-- The minimal success payload of an adjust call (`AdjustResult` in
`services/api.ts`): a message and optionally a single cluster stub. -/
structure AdjustResult where
  message : String
  cluster : Option (ClusterId × Option String × Nat)
deriving DecidableEq

/-- Modelled from the spec: the live dashboard reconciliation after any
successful adjustment (rename, merge, split, delete-and-redistribute) is
not under `src/`; per the spec it refetches session detail and replaces
local state wholesale exactly like `fetchResults` does, never reading the
mutation payload. -/
def reconcileAfterAdjustment (_kind : AdjustmentKind) (st : DashState)
    (_mutationPayload : AdjustResult) (refetched : SessionResultResponse) :
    DashState :=
  fetchResultsApply st refetched

/-- Numeric sort key of a cluster id as computed by the display sort sites:
`parseFloat(String(id))`, `none` standing for `NaN`. -/
def idSortKey (c : ClusterResult) : Option Rat :=
  jsParseFloat (jsStringOfId c.id)

/-- JavaScript `localeCompare`, modelled as code-point comparison (the
comparator below only uses the sign of the result). -/
def localeCompareInt (a b : String) : Int :=
  if a < b then -1 else if b < a then 1 else 0

/-- The sort comparator shared verbatim by `sortClustersNumerically` in
`ChartsDisplay.tsx` and the `sortedClusters` computation in
`ContactSheetsGrid`: ids with a `parseFloat`-numeric value compare by that
value; a numeric id sorts before a non-numeric one; two non-numeric ids
compare by `localeCompare`. -/
def clusterCompare (a b : ClusterResult) : Rat :=
  match idSortKey a, idSortKey b with
  | none, none =>
    ((localeCompareInt (jsStringOfId a.id) (jsStringOfId b.id) : Int) : Rat)
  | none, some _ => 1
  | some _, none => -1
  | some x, some y => x - y

/-- Non-positive comparator result, the order the sorted output
satisfies. -/
def clusterLe (a b : ClusterResult) : Bool :=
  decide (clusterCompare a b ≤ 0)

/-- `sortClustersNumerically` of `ChartsDisplay.tsx`: `Array.prototype.sort`
(stable) on a spread copy `[...clusters]` with the comparator above,
modelled by a stable merge sort; the input collection is left untouched. -/
def sortClustersNumerically (clusters : List ClusterResult) :
    List ClusterResult :=
  clusters.mergeSort clusterLe

/-- The `sortedClusters` computation of `ContactSheetsGrid` (contact-sheet
grid display), textually the same copy-and-sort with the same
comparator. -/
def contactSheetsGridSorted (clusters : List ClusterResult) :
    List ClusterResult :=
  clusters.mergeSort clusterLe

/-- Display order stated by the claim: numeric ids in ascending value
order, every numeric id before every non-numeric id, non-numeric ids in
lexicographic order among themselves. -/
def claimClusterOrder (a b : ClusterResult) : Prop :=
  match idSortKey a, idSortKey b with
  | none, none => jsStringOfId a.id ≤ jsStringOfId b.id
  | none, some _ => False
  | some _, none => True
  | some x, some y => x ≤ y

theorem localeCompareInt_cast_nonpos (a b : String) :
    ((localeCompareInt a b : Int) : Rat) ≤ 0 ↔ a ≤ b := by
  unfold localeCompareInt
  rcases lt_trichotomy a b with h | h | h
  · rw [if_pos h]
    simp [le_of_lt h]
  · rw [if_neg (by simp [h]), if_neg (by simp [h])]
    simp [le_of_eq h]
  · rw [if_neg (not_lt.mpr (le_of_lt h)), if_pos h]
    simp [not_le.mpr h]

theorem clusterLe_iff_claimOrder (a b : ClusterResult) :
    clusterLe a b = true ↔ claimClusterOrder a b := by
  unfold clusterLe clusterCompare claimClusterOrder
  rcases hka : idSortKey a with _ | x <;> rcases hkb : idSortKey b with _ | y
  · simp only [decide_eq_true_eq]
    exact localeCompareInt_cast_nonpos _ _
  · simp only [decide_eq_true_eq]
    norm_num
  · simp only [decide_eq_true_eq]
    norm_num
  · simp only [decide_eq_true_eq]
    exact sub_nonpos

theorem claimClusterOrder_trans (a b c : ClusterResult) :
    claimClusterOrder a b → claimClusterOrder b c → claimClusterOrder a c := by
  unfold claimClusterOrder
  rcases hka : idSortKey a with _ | x <;> rcases hkb : idSortKey b with _ | y <;>
    rcases hkc : idSortKey c with _ | z <;> intro h1 h2 <;>
    first
      | exact le_trans h1 h2
      | exact h1.elim
      | exact h2.elim
      | trivial

theorem claimClusterOrder_total (a b : ClusterResult) :
    claimClusterOrder a b ∨ claimClusterOrder b a := by
  unfold claimClusterOrder
  rcases hka : idSortKey a with _ | x <;> rcases hkb : idSortKey b with _ | y
  · exact le_total _ _
  · exact Or.inr trivial
  · exact Or.inl trivial
  · exact le_total x y

theorem clusterLe_trans_bool (a b c : ClusterResult) :
    clusterLe a b → clusterLe b c → clusterLe a c := by
  intro h1 h2
  exact (clusterLe_iff_claimOrder a c).mpr
    (claimClusterOrder_trans a b c
      ((clusterLe_iff_claimOrder a b).mp h1)
      ((clusterLe_iff_claimOrder b c).mp h2))

theorem clusterLe_total_bool (a b : ClusterResult) :
    clusterLe a b || clusterLe b a := by
  rcases claimClusterOrder_total a b with h | h
  · simp [(clusterLe_iff_claimOrder a b).mpr h]
  · simp [(clusterLe_iff_claimOrder b a).mpr h]

/-- C1: for every session selected via `selectSession`, the immediate
fetch starts the recurring 5 second poll exactly when the fetched status
is non-terminal; a poll tick applying a terminal status stops polling; a
tick applying a non-terminal status keeps it running; a stopped poll is
never restarted by poll ticks (only an adjustment reconciliation fetch can
restart it, and only for a non-terminal status). -/
theorem claim_C1_polling_lifecycle :
    (∀ (prev : PollState) (s : SessionStatus),
      (selectSession prev s).pollingActive = !isTerminalStatus s ∧
      (selectSession prev s).intervalMs = POLL_INTERVAL_MS) ∧
    (∀ (st : PollState) (s : SessionStatus), isTerminalStatus s = true →
      (lifecycleStep st (.pollTick s)).pollingActive = false) ∧
    (∀ (st : PollState) (s : SessionStatus), st.pollingActive = true →
      (lifecycleStep st (.pollTick s)).pollingActive = !isTerminalStatus s) ∧
    (∀ (st : PollState) (s : SessionStatus), st.pollingActive = false →
      lifecycleStep st (.pollTick s) = st) ∧
    (∀ (st : PollState) (s : SessionStatus),
      (lifecycleStep st (.adjustReconcile s)).pollingActive
        = !isTerminalStatus s) := by
  refine ⟨fun prev s => ⟨rfl, rfl⟩, ?_, ?_, ?_, fun st s => rfl⟩
  · intro st s hs
    rcases st with ⟨pa, i, ls⟩
    cases pa <;> simp [lifecycleStep, applyFetch, hs]
  · intro st s h
    simp [lifecycleStep, h, applyFetch]
  · intro st s h
    simp [lifecycleStep, h]

/-- Witness for C1 at concrete inputs: a tick fetching `SUCCESS` stops the
poll. -/
theorem claim_C1_polling_lifecycle_witness :
    (lifecycleStep ⟨true, 5000, .PROCESSING⟩ (.pollTick .SUCCESS)).pollingActive
      = false :=
  claim_C1_polling_lifecycle.2.1 ⟨true, 5000, .PROCESSING⟩ .SUCCESS rfl

/-- C2: after every successful adjustment (rename, merge, split,
delete-and-redistribute) the cluster collection equals the refetched
session detail wholesale; the result does not depend on the mutation
payload, and the cluster collection does not depend on the previous local
state. -/
theorem claim_C2_wholesale_reconciliation :
    ∀ (k : AdjustmentKind) (st : DashState) (p : AdjustResult)
      (refetched : SessionResultResponse),
      (reconcileAfterAdjustment k st p refetched).clusters
        = refetched.clusters.getD [] ∧
      (reconcileAfterAdjustment k st p refetched).currentSessionDetails
        = some refetched ∧
      (∀ p₁ p₂ : AdjustResult,
        reconcileAfterAdjustment k st p₁ refetched
          = reconcileAfterAdjustment k st p₂ refetched) ∧
      (∀ st₁ st₂ : DashState,
        (reconcileAfterAdjustment k st₁ p refetched).clusters
          = (reconcileAfterAdjustment k st₂ p refetched).clusters) :=
  fun _ _ _ _ => ⟨rfl, rfl, fun _ _ => rfl, fun _ _ => rfl⟩

/-- C3: a merge invocation whose selection contains fewer than 2 ids
present in the current cluster collection fails the precondition and
issues no network request. -/
theorem claim_C3_merge_precondition :
    ∀ (sessionId : String) (ctx : MergeContext),
      selectedPresentCount ctx < 2 →
      handleMergeClusters sessionId ctx
        = .rejected "merge requires at least 2 selected clusters" ∧
      attemptRequests (handleMergeClusters sessionId ctx) = [] := by
  intro sessionId ctx h
  unfold handleMergeClusters
  rw [if_pos h]
  exact ⟨rfl, rfl⟩

/-- Witness for C3: one selected id, absent from an empty collection. -/
theorem claim_C3_merge_precondition_witness :
    handleMergeClusters "s1" ⟨[], [.num 1]⟩
      = .rejected "merge requires at least 2 selected clusters" ∧
    attemptRequests (handleMergeClusters "s1" ⟨[], [.num 1]⟩) = [] :=
  claim_C3_merge_precondition "s1" ⟨[], [.num 1]⟩ (by decide)

/-- C4: a split invocation with a numSplits input that does not parse to
an integer of at least 2, or whose target cluster has size below 2, is
rejected before any network request is sent. -/
theorem claim_C4_split_validation :
    ∀ (sessionId : String) (commonDisabled : Bool) (cluster : ClusterResult)
      (numSplitsInput : String),
      (cluster.size < 2 ∨
        ¬ ∃ k : Int, jsParseIntBase10 numSplitsInput = some k ∧ 2 ≤ k) →
      attemptRequests
        (splitInvocation sessionId commonDisabled cluster numSplitsInput)
        = [] := by
  intro sessionId cd cluster inp h
  unfold splitInvocation
  rcases h with h | h
  · have hb : splitButtonEnabled cd cluster.size = false := by
      simp [splitButtonEnabled, h]
    rw [if_pos hb]
    rfl
  · have hc : splitModalHandleConfirm inp = none := by
      unfold splitModalHandleConfirm
      rcases hp : jsParseIntBase10 inp with _ | k
      · rfl
      · have hk : k < 2 := by
          by_contra hk
          exact h ⟨k, hp, not_lt.mp hk⟩
        simp [hk]
    by_cases hb : splitButtonEnabled cd cluster.size = false
    · rw [if_pos hb]
      rfl
    · rw [if_neg hb, hc]
      rfl

/-- Witness for C4: a cluster of size 1 is rejected even with a valid
numSplits input. -/
theorem claim_C4_split_validation_witness :
    attemptRequests
      (splitInvocation "s1" false ⟨.num 3, none, none, 1, none, none⟩ "2")
      = [] :=
  claim_C4_split_validation "s1" false ⟨.num 3, none, none, 1, none, none⟩ "2"
    (Or.inl (by decide))

/-- C5 counterexample: with current cluster name `A` and edited name
`A ` (trailing space), the trimmed new name equals the current name, yet
`handleSaveClick` is not a no-op: it invokes the rename collaborator
(carrying the trimmed name), so a request is sent. -/
theorem claim_C5_rename_noop_cex :
    jsTrim "A " = "A" ∧
    handleSaveClick "A " (some "A") = .callRename "A" ∧
    handleSaveClick "A " (some "A") ≠ .noop := by
  decide

/-- C5 amended: the rename save handler performs no network call and
returns success exactly when the raw (untrimmed) edited name strictly
equals the current name; any other edited name triggers one rename request
carrying the trimmed name. -/
theorem claim_C5_rename_noop_amended :
    (∀ (name : String) (initialName : Option String),
      initialName = some name → handleSaveClick name initialName = .noop) ∧
    (∀ (currentName : String) (initialName : Option String),
      some currentName ≠ initialName →
      handleSaveClick currentName initialName
        = .callRename (jsTrim currentName)) := by
  constructor
  · intro n i h
    subst h
    simp [handleSaveClick]
  · intro c i h
    unfold handleSaveClick
    rw [if_neg h]

/-- Witness for C5 amended at concrete inputs. -/
theorem claim_C5_rename_noop_amended_witness :
    handleSaveClick "old " (some "old") = .callRename "old" := by
  rw [claim_C5_rename_noop_amended.2 "old " (some "old") (by decide)]
  decide

/-- C6: a 204 status, or a successful (2xx) status with an unparseable
body, makes the response handler resolve with a null payload. -/
theorem claim_C6_success_null_payload :
    ∀ r : JsResponse,
      (r.status = 204 → handleResponse r = .success none) ∧
      (response_ok r.status = true → r.jsonBody = none →
        handleResponse r = .success none) := by
  intro r
  constructor
  · intro h
    unfold handleResponse
    rw [if_pos h]
  · intro hok hb
    unfold handleResponse
    by_cases h204 : r.status = 204
    · rw [if_pos h204]
    · rw [if_neg h204, hb]
      simp [hok]

/-- Witness for C6: a 204 response and a 200 response with a non-JSON
body both resolve with null. -/
theorem claim_C6_success_null_payload_witness :
    handleResponse ⟨204, none⟩ = .success none ∧
    handleResponse ⟨200, none⟩ = .success none :=
  ⟨(claim_C6_success_null_payload ⟨204, none⟩).1 rfl,
   (claim_C6_success_null_payload ⟨200, none⟩).2 (by decide) rfl⟩

theorem status_ne_204_of_not_ok {s : Nat} (h : response_ok s = false) :
    s ≠ 204 := by
  intro hs
  rw [hs] at h
  exact absurd h (by decide)

/-- C7 counterexample: a 400 response whose parsed body has an `error`
field that is present but empty and a `message` field `m` raises the
failure `m`, not the `error` field text, because JavaScript `||` treats an
empty string as falsy. -/
theorem claim_C7_error_field_cex :
    handleResponse ⟨400, some ⟨some "", some "m"⟩⟩ = .failure "m" ∧
    handleResponse ⟨400, some ⟨some "", some "m"⟩⟩ ≠ .failure "" := by
  decide

/-- C7 amended: a non-2xx response raises a failure carrying the `error`
field when it is a non-empty string, else the `message` field when
non-empty, else a generic message containing the numeric status; when the
body is absent or not parseable the failure is the generic not-JSON
message containing the numeric status. -/
theorem claim_C7_error_surfacing_amended :
    (∀ (r : JsResponse) (d : ParsedBody) (e : String),
      response_ok r.status = false → r.jsonBody = some d →
      d.error = some e → e ≠ "" →
      handleResponse r = .failure e) ∧
    (∀ (r : JsResponse) (d : ParsedBody) (m : String),
      response_ok r.status = false → r.jsonBody = some d →
      (d.error = none ∨ d.error = some "") →
      d.message = some m → m ≠ "" →
      handleResponse r = .failure m) ∧
    (∀ (r : JsResponse) (d : ParsedBody),
      response_ok r.status = false → r.jsonBody = some d →
      (d.error = none ∨ d.error = some "") →
      (d.message = none ∨ d.message = some "") →
      handleResponse r
        = .failure ("HTTP error! Status: " ++ toString r.status)) ∧
    (∀ r : JsResponse,
      response_ok r.status = false → r.jsonBody = none →
      handleResponse r
        = .failure
          ("HTTP error! Status: " ++ toString r.status ++ ", Body is not JSON.")) := by
  refine ⟨?_, ?_, ?_, ?_⟩
  · intro r d e hok hb he hne
    unfold handleResponse
    rw [if_neg (status_ne_204_of_not_ok hok), hb]
    simp [hok, jsTruthyOr, he, hne]
  · intro r d m hok hb he hm hne
    unfold handleResponse
    rw [if_neg (status_ne_204_of_not_ok hok), hb]
    rcases he with he | he <;>
      simp [hok, jsTruthyOr, he, hm, hne]
  · intro r d hok hb he hm
    unfold handleResponse
    rw [if_neg (status_ne_204_of_not_ok hok), hb]
    rcases he with he | he <;> rcases hm with hm | hm <;>
      simp [hok, jsTruthyOr, he, hm]
  · intro r hok hb
    unfold handleResponse
    rw [if_neg (status_ne_204_of_not_ok hok), hb]
    simp [hok]

/-- Witness for C7 amended: a 404 with body error field `boom` raises
`boom`. -/
theorem claim_C7_error_surfacing_amended_witness :
    handleResponse ⟨404, some ⟨some "boom", none⟩⟩ = .failure "boom" :=
  claim_C7_error_surfacing_amended.1 ⟨404, some ⟨some "boom", none⟩⟩
    ⟨some "boom", none⟩ "boom" (by decide) rfl rfl (by decide)

/-- C8 counterexample: a 401 response observed through `fetchWithAuth`
while the client is not in the authenticated state (the startup token
validation flow) does not trigger the logout side effect, so the claim
that every 401 through the wrapper triggers de-authentication fails. -/
theorem claim_C8_logout_cex :
    (fetchWithAuth ⟨some "tok", false⟩ "/api/me" [] false
      ⟨401, none⟩).logoutCalled = false := by
  decide

/-- C8 amended: a 401 response triggers the global de-authentication side
effect whenever the client is currently authenticated, independent of the
url, headers or body kind of the request; when the client is not in the
authenticated state the wrapper never triggers it. -/
theorem claim_C8_deauth_amended :
    (∀ (st : AuthState) (url : String) (hs : List (String × String))
      (form : Bool) (resp : JsResponse),
      st.isAuthenticated = true → resp.status = 401 →
      (fetchWithAuth st url hs form resp).logoutCalled = true) ∧
    (∀ (st : AuthState) (url : String) (hs : List (String × String))
      (form : Bool) (resp : JsResponse),
      st.isAuthenticated = false →
      (fetchWithAuth st url hs form resp).logoutCalled = false) := by
  constructor
  · intro st url hs form resp h1 h2
    simp [fetchWithAuth, h1, h2]
  · intro st url hs form resp h1
    simp [fetchWithAuth, h1]

/-- Witness for C8 amended: a 401 on a session-list request while
authenticated triggers logout. -/
theorem claim_C8_deauth_amended_witness :
    (fetchWithAuth ⟨some "tok", true⟩ "/api/clustering/sessions" [] false
      ⟨401, none⟩).logoutCalled = true :=
  claim_C8_deauth_amended.1 ⟨some "tok", true⟩ "/api/clustering/sessions"
    [] false ⟨401, none⟩ rfl rfl

/-- C9: rename, merge and split each issue exactly one POST to the adjust
endpoint with action tags RENAME, MERGE_CLUSTERS and SPLIT_CLUSTER and
their action-specific fields, while delete-and-redistribute issues one
bodyless DELETE to the cluster resource. -/
theorem claim_C9_wire_contract :
    ∀ (sessionId newName : String) (cid : ClusterId) (ids : List ClusterId)
      (numSplits : Nat) (label : ClusterId),
      renameClusterCall sessionId cid newName
        = [renameClusterRequest sessionId cid newName] ∧
      (renameClusterRequest sessionId cid newName).method = "POST" ∧
      (renameClusterRequest sessionId cid newName).url
        = "/api/clustering/results/" ++ sessionId ++ "/adjust" ∧
      (renameClusterRequest sessionId cid newName).body
        = some (.renamePayload cid newName) ∧
      adjustActionTag (.renamePayload cid newName) = "RENAME" ∧
      mergeSelectedClustersCall sessionId ids
        = [mergeSelectedClustersRequest sessionId ids] ∧
      (mergeSelectedClustersRequest sessionId ids).method = "POST" ∧
      (mergeSelectedClustersRequest sessionId ids).url
        = "/api/clustering/results/" ++ sessionId ++ "/adjust" ∧
      (mergeSelectedClustersRequest sessionId ids).body
        = some (.mergePayload ids) ∧
      adjustActionTag (.mergePayload ids) = "MERGE_CLUSTERS" ∧
      splitSelectedClusterCall sessionId cid numSplits
        = [splitSelectedClusterRequest sessionId cid numSplits] ∧
      (splitSelectedClusterRequest sessionId cid numSplits).method = "POST" ∧
      (splitSelectedClusterRequest sessionId cid numSplits).url
        = "/api/clustering/results/" ++ sessionId ++ "/adjust" ∧
      (splitSelectedClusterRequest sessionId cid numSplits).body
        = some (.splitPayload cid numSplits) ∧
      adjustActionTag (.splitPayload cid numSplits) = "SPLIT_CLUSTER" ∧
      deleteAndRedistributeClusterCall sessionId label
        = [deleteAndRedistributeClusterRequest sessionId label] ∧
      (deleteAndRedistributeClusterRequest sessionId label).method
        = "DELETE" ∧
      (deleteAndRedistributeClusterRequest sessionId label).url
        = "/api/clustering/results/" ++ sessionId ++ "/cluster/"
          ++ jsStringOfId label ∧
      (deleteAndRedistributeClusterRequest sessionId label).body = none :=
  fun _ _ _ _ _ _ =>
    ⟨rfl, rfl, rfl, rfl, rfl, rfl, rfl, rfl, rfl, rfl, rfl, rfl, rfl, rfl,
     rfl, rfl, rfl, rfl, rfl⟩

/-- C10: every display site sorts a copy of the cluster list with the
shared comparator, and the result is a permutation of the input ordered so
that ids with a numeric `parseFloat` value come first in ascending value
order, every numeric id precedes every non-numeric id, and non-numeric ids
are ordered lexicographically among themselves. -/
theorem claim_C10_display_sort :
    ∀ l : List ClusterResult,
      List.Perm (sortClustersNumerically l) l ∧
      (sortClustersNumerically l).Pairwise claimClusterOrder ∧
      contactSheetsGridSorted l = sortClustersNumerically l := by
  intro l
  refine ⟨List.mergeSort_perm l clusterLe, ?_, rfl⟩
  have hs : (l.mergeSort clusterLe).Pairwise (fun a b => clusterLe a b = true) :=
    List.sorted_mergeSort clusterLe_trans_bool clusterLe_total_bool l
  exact hs.imp (fun h => (clusterLe_iff_claimOrder _ _).mp h)

end Klaster

